import Mathlib

set_option linter.unusedVariables false

/-!
Shallow embedding of `sphinxcontrib/autodoc_pydantic/directives.py` and of the
helper interfaces it consumes.  The directives module is embedded from its
source; the helpers it imports (`util`, `inspection`) and the host node-tree
primitives are modelled from the specification of this repository.
-/

/-- A docutils output-tree node, reduced to the data the directives observe:
its tag name, its rendered text and its css classes. -/
structure Node where
  tagname : String
  text : String
  classes : List String
deriving Repr, DecidableEq

/-- Host node constructor `desc_annotation(rawsource, text)` with no classes.
The first argument mirrors the (unused) rawsource parameter. -/
def desc_annotation (rawsource text : String) : Node :=
  { tagname := "desc_annotation", text := text, classes := [] }

/-- Host node constructor `desc_annotation(rawsource, text, classes=...)`. -/
def desc_annotation_classes (rawsource text : String) (classes : List String) : Node :=
  { tagname := "desc_annotation", text := text, classes := classes }

/-- Host node `desc_signature`: carries a fully-qualified dotted name
(`signode["fullname"]`) and a mutable list of children, modelled by explicit
state passing. -/
structure DescSignature where
  fullname : String
  children : List Node
deriving Repr, DecidableEq

/-- Modelled from the spec: a resolved configuration option value as the
option store hands it back; `unset` stands for an absent option (Python
`None`), strings and booleans for present values. -/
inductive OptionValue where
  | unset
  | str (s : String)
  | boolean (b : Bool)
deriving Repr, DecidableEq

/-- Python truthiness of an option value: `None` and `""` and `False` are
falsy, everything else truthy. -/
def OptionValue.truthy : OptionValue → Bool
  | .unset => false
  | .str s => s ≠ ""
  | .boolean b => b

/-- Python string rendering of an option value, used when the value is
interpolated into an f-string. -/
def OptionValue.py_str : OptionValue → String
  | .unset => "None"
  | .str s => s
  | .boolean b => if b then "True" else "False"

/-- Modelled from the spec: the Option Resolver (`PydanticAutoDirective` in
the missing `util` module) "resolves a named configuration option's effective
value by checking directive-local overrides, then falling back to
document-wide defaults". -/
structure PydanticAutoDirective where
  directive_options : String → Option OptionValue
  document_defaults : String → OptionValue

/-- Modelled from the spec: effective option lookup, directive-local value
first, document-wide default otherwise. -/
def PydanticAutoDirective.get_option_value
    (p : PydanticAutoDirective) (name : String) : OptionValue :=
  match p.directive_options name with
  | some v => v
  | none => p.document_defaults name

/-- Modelled from the spec: a declared field of the documented class, with
its attribute name and its external alias. -/
structure FieldInfo where
  name : String
  «alias» : String
deriving Repr, DecidableEq

/-- Modelled from the spec: the Member Wrapper, "a transient view over a live
class object", exposing the declared fields (name/alias pairs) and the
validator-to-field bindings in source declaration order. -/
structure ModelWrapper where
  fields : List FieldInfo
  validators : List (String × List String)
deriving Repr, DecidableEq

/-- Modelled from the spec: "resolve field by name" over the class's declared
member metadata; `none` models the hard lookup error. -/
def ModelWrapper.get_field_object_by_name
    (w : ModelWrapper) (name : String) : Option FieldInfo :=
  w.fields.find? (fun f => f.name == name)

/-- Modelled from the spec: "resolve fields validated by a given validator
name", reported in source declaration order; `none` models the hard lookup
error for an unknown validator. -/
def ModelWrapper.get_fields_for_validator
    (w : ModelWrapper) (name : String) : Option (List String) :=
  (w.validators.find? (fun v => v.1 == name)).map (fun v => v.2)

/-- Modelled from the spec: `ModelWrapper.from_signode` "locates the live
class object" described by the signature node, "derived deterministically
from the dotted name on the signature node"; the environment maps dotted
names to wrappers and `none` models the hard resolution error. -/
def ModelWrapper.from_signode
    (env : String → Option ModelWrapper) (signode : DescSignature) :
    Option ModelWrapper :=
  env signode.fullname

/-- Modelled from the spec: the host node-tree primitive "child-removal by
tag" (`remove_node_by_tagname` in the missing `util` module): removes the
children with the given tag name from the list, in place in the source,
modelled as a filter. -/
def remove_node_by_tagname (nodes : List Node) (tagname : String) : List Node :=
  nodes.filter (fun n => n.tagname ≠ tagname)

/-- Modelled from the spec: `create_field_href` builds "one cross-reference
node per field", referencing the field by name. -/
def create_field_href (field : String) : Node :=
  { tagname := "pending_xref", text := field, classes := [] }

/-- Result of a signature-handling call on a mutable node: either the call
returns normally with its value, or it raises, in which case the state the
caller-held node was left in is recorded. -/
inductive CallResult (α : Type) where
  | ok (a : α)
  | raised (signode : DescSignature)
deriving Repr, DecidableEq

/-- The five specialized directive kinds of `directives.py`. -/
inductive Directive where
  | model
  | settings
  | field
  | validator
  | config
deriving Repr, DecidableEq

/-- `config_name` class attribute of each directive class. -/
def Directive.config_name : Directive → String
  | .model => "model"
  | .settings => "settings"
  | .field => "field"
  | .validator => "validator"
  | .config => "config"

/-- `default_prefix` class attribute of each directive class (renamed here to
`default_label`): the hard-coded default signature label. -/
def Directive.default_label : Directive → String
  | .model => "class"
  | .settings => "class"
  | .field => "attribute"
  | .validator => "classmethod"
  | .config => "class"

/-- `PydanticDirectiveBase.get_signature_prefix`: looks up
`<config_name>-signature-prefix`, takes the resolved value if truthy and the
hard-coded default label otherwise, and renders it followed by one space. -/
def get_signature_prefix
    (pyautodoc : PydanticAutoDirective) (d : Directive) (sig : String) : String :=
  let config_name := d.config_name ++ "-signature-prefix"
  let pfx := pyautodoc.get_option_value config_name
  let value := if pfx.truthy then pfx.py_str else d.default_label
  value ++ " "

/-- Splitting a character list at every dot, with the semantics of Python
`str.split(".")`: the empty string yields one empty component, and every dot
separates two (possibly empty) components. -/
def split_on_dot : List Char → List (List Char)
  | [] => [[]]
  | c :: cs =>
    match split_on_dot cs with
    | [] => [[]]
    | w :: ws => if c = '.' then [] :: w :: ws else (c :: w) :: ws

/-- Python `fullname.split(".")[-1]`: the last dotted-name component. -/
def last_component (fullname : String) : String :=
  String.mk ((split_on_dot fullname.data).getLastD [])

/-- `PydanticField.add_alias`: looks up the field named by the last
dotted-name component via the Member Wrapper and, when the resolved alias
differs from the declared name, appends one alias annotation; resolution
failures raise with the node unchanged. -/
def PydanticField.add_alias
    (env : String → Option ModelWrapper) (signode : DescSignature) :
    CallResult DescSignature :=
  let field_name := last_component signode.fullname
  match ModelWrapper.from_signode env signode with
  | none => .raised signode
  | some wrapper =>
    match wrapper.get_field_object_by_name field_name with
    | none => .raised signode
    | some field =>
      if field.«alias» ≠ field_name then
        .ok { signode with children := signode.children ++
          [ desc_annotation "" (" (alias \x27" ++ field.«alias» ++ "\x27)")] }
      else
        .ok signode

/-- `PydanticField.handle_signature`, after the host's generic handling:
takes the node and the `(fullname, prefix)` pair the generic handling
produced, and calls `add_alias` when `field-show-alias` resolves truthy. -/
def PydanticField.handle_signature
    (pyautodoc : PydanticAutoDirective) (env : String → Option ModelWrapper)
    (signode : DescSignature) (fullname pfx : String) :
    CallResult (String × String × DescSignature) :=
  if (pyautodoc.get_option_value "field-show-alias").truthy then
    match PydanticField.add_alias env signode with
    | .ok s => .ok (fullname, pfx, s)
    | .raised s => .raised s
  else
    .ok (fullname, pfx, signode)

/-- `PydanticValidator.replace_return_node`: removes the rendered parameter
list, appends the arrow separator annotation, then resolves the validator's
bound fields and appends the first field reference followed by a `", "`
annotation and a reference for each further field.  A failed wrapper or
field lookup, or indexing `fields[0]` on an empty binding list, raises with
the node left as mutated so far. -/
def PydanticValidator.replace_return_node
    (env : String → Option ModelWrapper) (signode : DescSignature) :
    CallResult DescSignature :=
  let signode1 : DescSignature :=
    { signode with children := remove_node_by_tagname signode.children "desc_parameterlist" }
  let class_name := "autodoc_pydantic_validator_arrow"
  let signode2 : DescSignature :=
    { signode1 with children := signode1.children ++
      [ desc_annotation_classes "" "  »  " [class_name]] }
  let validator_name := last_component signode2.fullname
  match ModelWrapper.from_signode env signode2 with
  | none => .raised signode2
  | some wrapper =>
    match wrapper.get_fields_for_validator validator_name with
    | none => .raised signode2
    | some fields =>
      match fields with
      | [] => .raised signode2
      | first_field :: rest =>
        let signode3 : DescSignature :=
          { signode2 with children := signode2.children ++ [ create_field_href first_field] }
        let signode4 : DescSignature :=
          rest.foldl (fun s f =>
            { s with children := s.children ++
              [ desc_annotation "" ", ", create_field_href f] }) signode3
        .ok signode4

/-- `PydanticValidator.handle_signature`, after the host's generic handling:
takes the node and the `(fullname, prefix)` pair the generic handling
produced, and calls `replace_return_node` when `validator-replace-signature`
resolves truthy. -/
def PydanticValidator.handle_signature
    (pyautodoc : PydanticAutoDirective) (env : String → Option ModelWrapper)
    (signode : DescSignature) (fullname pfx : String) :
    CallResult (String × String × DescSignature) :=
  if (pyautodoc.get_option_value "validator-replace-signature").truthy then
    match PydanticValidator.replace_return_node env signode with
    | .ok s => .ok (fullname, pfx, s)
    | .raised s => .raised s
  else
    .ok (fullname, pfx, signode)

/-- Signature handling of each directive kind.  `PydanticModel`,
`PydanticSettings` and `PydanticConfigClass` do not override the host's
generic `handle_signature`, so for them the generic result passes through
unchanged; the field and validator directives run their augmentation steps. -/
def directive_handle_signature
    (d : Directive) (pyautodoc : PydanticAutoDirective)
    (env : String → Option ModelWrapper) (signode : DescSignature)
    (fullname pfx : String) : CallResult (String × String × DescSignature) :=
  match d with
  | .field => PydanticField.handle_signature pyautodoc env signode fullname pfx
  | .validator => PydanticValidator.handle_signature pyautodoc env signode fullname pfx
  | _ => .ok (fullname, pfx, signode)

/-- The comma-joined field reference nodes a validator signature gains: one
reference per bound field, in binding order, separated by `", "`
annotations. -/
def field_reference_nodes : List String → List Node
  | [] => []
  | f :: rest =>
    create_field_href f ::
      rest.flatMap (fun g => [ desc_annotation "" ", ", create_field_href g])

/-- The number of field cross-reference nodes in a node list. -/
def count_field_refs (nodes : List Node) : Nat :=
  nodes.countP (fun n => n.tagname == "pending_xref")

/-- C1 (amended): for every directive kind, an unset `<construct>-signature-prefix`
option yields the hard-coded default label followed by one space, and an
override set to a non-empty string yields exactly the override text followed
by one space. -/
theorem C1_signature_label_of_option
    (d : Directive) (p : PydanticAutoDirective) (sig : String) :
    (p.get_option_value (d.config_name ++ "-signature-prefix") = OptionValue.unset →
       get_signature_prefix p d sig = d.default_label ++ " ") ∧
    (∀ s : String, s ≠ "" →
       p.get_option_value (d.config_name ++ "-signature-prefix") = OptionValue.str s →
       get_signature_prefix p d sig = s ++ " ") := by
  constructor
  · intro h
    simp [ get_signature_prefix, h, OptionValue.truthy]
  · intro s hs h
    simp [ get_signature_prefix, h, OptionValue.truthy, OptionValue.py_str, hs]

/-- C1 counterexample: the model directive with `model-signature-prefix` set to
the empty string returns the default label `"class "`, not the override text
followed by one space (which would be `" "`). -/
theorem C1_empty_override_refutes :
    PydanticAutoDirective.get_option_value
      ⟨fun n => if n == "model-signature-prefix" then some (OptionValue.str "") else none,
       fun _ => OptionValue.unset⟩ "model-signature-prefix" = OptionValue.str "" ∧
    get_signature_prefix
      ⟨fun n => if n == "model-signature-prefix" then some (OptionValue.str "") else none,
       fun _ => OptionValue.unset⟩ Directive.model "MyModel" = "class " ∧
    "class " ≠ "" ++ " " := by
  exact ⟨by decide, by decide, by decide⟩

/-- C1 witness: the amended statement evaluated for the field directive with no
override, and for the validator directive with a non-empty override. -/
theorem C1_signature_label_of_option_witness :
    get_signature_prefix
      ⟨fun _ => none, fun _ => OptionValue.unset⟩ Directive.field "f" = "attribute " ∧
    get_signature_prefix
      ⟨fun n => if n == "validator-signature-prefix"
                then some (OptionValue.str "pydantic validator") else none,
       fun _ => OptionValue.unset⟩ Directive.validator "v" = "pydantic validator " := by
  constructor
  · exact (C1_signature_label_of_option Directive.field
      ⟨fun _ => none, fun _ => OptionValue.unset⟩ "f").1 (by decide)
  · exact (C1_signature_label_of_option Directive.validator
      ⟨fun n => if n == "validator-signature-prefix"
                then some (OptionValue.str "pydantic validator") else none,
       fun _ => OptionValue.unset⟩ "v").2 "pydantic validator" (by decide) (by decide)

/-- C9: for every directive kind, an override set to the empty string is
treated as unset: the returned value is the hard-coded default label followed
by one space, because the implementation takes the default whenever the
resolved option value is falsy. -/
theorem C9_empty_string_override_default
    (d : Directive) (p : PydanticAutoDirective) (sig : String)
    (h : p.get_option_value (d.config_name ++ "-signature-prefix") = OptionValue.str "") :
    get_signature_prefix p d sig = d.default_label ++ " " := by
  simp [ get_signature_prefix, h, OptionValue.truthy]

/-- C9 witness: the settings directive with `settings-signature-prefix` set to
the empty string yields `"class "`. -/
theorem C9_empty_string_override_default_witness :
    get_signature_prefix
      ⟨fun n => if n == "settings-signature-prefix" then some (OptionValue.str "") else none,
       fun _ => OptionValue.unset⟩ Directive.settings "S" = "class " := by
  exact C9_empty_string_override_default Directive.settings
    ⟨fun n => if n == "settings-signature-prefix" then some (OptionValue.str "") else none,
     fun _ => OptionValue.unset⟩ "S" (by decide)

/-- C7: the model, settings and config-class directives perform pure label
substitution only: for every option store, environment and input node their
signature handling is exactly the generic host handling — the node is
untouched and the returned pair is the generic one, with no dependence on the
cross-reference environment. -/
theorem C7_pure_label_substitution
    (pyautodoc : PydanticAutoDirective) (env : String → Option ModelWrapper)
    (signode : DescSignature) (fullname pfx : String) :
    directive_handle_signature Directive.model pyautodoc env signode fullname pfx =
      CallResult.ok (fullname, pfx, signode) ∧
    directive_handle_signature Directive.settings pyautodoc env signode fullname pfx =
      CallResult.ok (fullname, pfx, signode) ∧
    directive_handle_signature Directive.config pyautodoc env signode fullname pfx =
      CallResult.ok (fullname, pfx, signode) := by
  exact ⟨rfl, rfl, rfl⟩

/-- C2: when `field-show-alias` resolves truthy and the field's resolved alias
differs from its declared name, `PydanticField.handle_signature` appends
exactly one annotation node, whose text renders the live alias as
` (alias '<alias>')`, and returns the generic `(fullname, prefix)` pair. -/
theorem C2_alias_annotation_appended
    (pyautodoc : PydanticAutoDirective) (env : String → Option ModelWrapper)
    (signode : DescSignature) (fullname pfx : String)
    (w : ModelWrapper) (f : FieldInfo)
    (hopt : (pyautodoc.get_option_value "field-show-alias").truthy = true)
    (hw : ModelWrapper.from_signode env signode = some w)
    (hf : w.get_field_object_by_name (last_component signode.fullname) = some f)
    (ha : f.«alias» ≠ last_component signode.fullname) :
    PydanticField.handle_signature pyautodoc env signode fullname pfx =
      CallResult.ok (fullname, pfx,
        { signode with children := signode.children ++
          [ desc_annotation "" (" (alias \x27" ++ f.«alias» ++ "\x27)")] }) := by
  simp [PydanticField.handle_signature, hopt, PydanticField.add_alias, hw, hf, ha]

/-- C2 witness: a field declared as `identifier` with alias `id` and
show-alias enabled gains exactly the annotation text ` (alias 'id')`. -/
theorem C2_alias_annotation_appended_witness :
    PydanticField.handle_signature
      ⟨fun n => if n == "field-show-alias" then some (OptionValue.boolean true) else none,
       fun _ => OptionValue.unset⟩
      (fun n => if n == "Model.identifier"
                then some ⟨[⟨"identifier", "id"⟩], []⟩ else none)
      ⟨"Model.identifier", []⟩ "Model.identifier" "attribute " =
      CallResult.ok ("Model.identifier", "attribute ",
        ⟨"Model.identifier", [ desc_annotation "" " (alias \x27id\x27)"]⟩) := by
  have h := C2_alias_annotation_appended
    ⟨fun n => if n == "field-show-alias" then some (OptionValue.boolean true) else none,
     fun _ => OptionValue.unset⟩
    (fun n => if n == "Model.identifier"
              then some ⟨[⟨"identifier", "id"⟩], []⟩ else none)
    ⟨"Model.identifier", []⟩ "Model.identifier" "attribute "
    ⟨[⟨"identifier", "id"⟩], []⟩ ⟨"identifier", "id"⟩
    (by decide) (by decide) (by decide) (by decide)
  simpa using h

/-- C3: when the field's resolved alias equals its declared name,
`PydanticField.add_alias` returns the signature node unchanged: no alias
annotation node is appended. -/
theorem C3_alias_equal_no_append
    (env : String → Option ModelWrapper) (signode : DescSignature)
    (w : ModelWrapper) (f : FieldInfo)
    (hw : ModelWrapper.from_signode env signode = some w)
    (hf : w.get_field_object_by_name (last_component signode.fullname) = some f)
    (ha : f.«alias» = last_component signode.fullname) :
    PydanticField.add_alias env signode = CallResult.ok signode := by
  simp [PydanticField.add_alias, hw, hf, ha]

/-- C3 witness: a field named `item` whose alias is also `item` leaves the
node exactly as it was. -/
theorem C3_alias_equal_no_append_witness :
    PydanticField.add_alias
      (fun n => if n == "Model.item" then some ⟨[⟨"item", "item"⟩], []⟩ else none)
      ⟨"Model.item", []⟩ = CallResult.ok ⟨"Model.item", []⟩ := by
  exact C3_alias_equal_no_append
    (fun n => if n == "Model.item" then some ⟨[⟨"item", "item"⟩], []⟩ else none)
    ⟨"Model.item", []⟩ ⟨[⟨"item", "item"⟩], []⟩ ⟨"item", "item"⟩
    (by decide) (by decide) (by decide)

/-- C6: when `validator-replace-signature` resolves falsy,
`PydanticValidator.handle_signature` returns exactly the generic handling's
result: the node is untouched — no separator or field-reference nodes are
added and the parameter list stays — and the `(fullname, prefix)` pair is the
generic one. -/
theorem C6_replace_disabled_untouched
    (pyautodoc : PydanticAutoDirective) (env : String → Option ModelWrapper)
    (signode : DescSignature) (fullname pfx : String)
    (h : (pyautodoc.get_option_value "validator-replace-signature").truthy = false) :
    PydanticValidator.handle_signature pyautodoc env signode fullname pfx =
      CallResult.ok (fullname, pfx, signode) := by
  simp [PydanticValidator.handle_signature, h]

/-- C6 witness: with the option unset, a validator node keeps its parameter
list and gains nothing. -/
theorem C6_replace_disabled_untouched_witness :
    PydanticValidator.handle_signature
      ⟨fun _ => none, fun _ => OptionValue.unset⟩
      (fun _ => none)
      ⟨"Model.check", [⟨"desc_parameterlist", "(cls, v)", []⟩]⟩ "Model.check" "classmethod " =
      CallResult.ok ("Model.check", "classmethod ",
        ⟨"Model.check", [⟨"desc_parameterlist", "(cls, v)", []⟩]⟩) := by
  exact C6_replace_disabled_untouched
    ⟨fun _ => none, fun _ => OptionValue.unset⟩ (fun _ => none)
    ⟨"Model.check", [⟨"desc_parameterlist", "(cls, v)", []⟩]⟩ "Model.check" "classmethod "
    (by decide)

/-- Folding the comma-and-reference append over the remaining fields appends
the flattened comma-joined reference nodes. -/
theorem foldl_comma_href (rest : List String) (s : DescSignature) :
    rest.foldl (fun t f =>
      { t with children := t.children ++
        [ desc_annotation "" ", ", create_field_href f] }) s =
    { s with children := s.children ++
      rest.flatMap (fun g => [ desc_annotation "" ", ", create_field_href g]) } := by
  induction rest generalizing s with
  | nil => simp
  | cons a as ih =>
    simp only [List.foldl_cons, List.flatMap_cons, ih]
    simp [List.append_assoc]

/-- Each comma-joined tail pair contributes exactly one reference node. -/
theorem countP_flatMap_pair (rest : List String) :
    (rest.flatMap (fun g => [ desc_annotation "" ", ", create_field_href g])).countP
      (fun n => n.tagname == "pending_xref") = rest.length := by
  induction rest with
  | nil => rfl
  | cons a as ih =>
    rw [List.flatMap_cons, List.countP_append, ih]
    have h1 : ([ desc_annotation "" ", ", create_field_href a]).countP
        (fun n => n.tagname == "pending_xref") = 1 := rfl
    rw [h1, List.length_cons]
    omega

/-- The joined reference-node list holds exactly one reference per field. -/
theorem count_field_refs_nodes (fields : List String) :
    count_field_refs (field_reference_nodes fields) = fields.length := by
  cases fields with
  | nil => rfl
  | cons f rest =>
    have h := countP_flatMap_pair rest
    simp only [field_reference_nodes, count_field_refs, List.countP_cons, h]
    have h2 : (fun n => n.tagname == "pending_xref") (create_field_href f) = true := rfl
    simp [List.countP_cons, h, h2]

/-- C4: when the validator resolves to N >= 1 bound fields,
`replace_return_node` removes the rendered parameter list, appends the
separator annotation, and then appends exactly N field reference nodes
joined by `", "` annotations, in the order the Member Wrapper reports the
fields. -/
theorem C4_replace_with_field_references
    (env : String → Option ModelWrapper) (signode : DescSignature)
    (w : ModelWrapper) (fields : List String)
    (hw : ModelWrapper.from_signode env signode = some w)
    (hf : w.get_fields_for_validator (last_component signode.fullname) = some fields)
    (hne : fields ≠ []) :
    PydanticValidator.replace_return_node env signode =
      CallResult.ok
        { signode with children :=
            remove_node_by_tagname signode.children "desc_parameterlist" ++
            [ desc_annotation_classes "" "  »  " ["autodoc_pydantic_validator_arrow"]] ++
            field_reference_nodes fields } ∧
    count_field_refs (field_reference_nodes fields) = fields.length := by
  refine ⟨?_, count_field_refs_nodes fields⟩
  obtain ⟨f, rest, rfl⟩ : ∃ f rest, fields = f :: rest := by
    cases fields with
    | nil => exact absurd rfl hne
    | cons a b => exact ⟨a, b, rfl⟩
  simp only [ModelWrapper.from_signode] at hw
  simp only [PydanticValidator.replace_return_node, ModelWrapper.from_signode,
    hw, hf, foldl_comma_href, field_reference_nodes]
  simp [List.append_assoc]

/-- C4 witness: a validator `check` bound to fields `a`, `b`, `c` loses its
parameter list and gains the separator, three references and two `", "`
annotations, in declaration order. -/
theorem C4_replace_with_field_references_witness :
    PydanticValidator.replace_return_node
      (fun n => if n == "Model.check"
                then some ⟨[], [("check", ["a", "b", "c"])]⟩ else none)
      ⟨"Model.check", [⟨"desc_parameterlist", "(cls, v)", []⟩]⟩ =
      CallResult.ok
        ⟨"Model.check",
         [ desc_annotation_classes "" "  »  " ["autodoc_pydantic_validator_arrow"],
           create_field_href "a", desc_annotation "" ", ", create_field_href "b",
           desc_annotation "" ", ", create_field_href "c"]⟩ ∧
    count_field_refs (field_reference_nodes ["a", "b", "c"]) = 3 := by
  have h := C4_replace_with_field_references
    (fun n => if n == "Model.check"
              then some ⟨[], [("check", ["a", "b", "c"])]⟩ else none)
    ⟨"Model.check", [⟨"desc_parameterlist", "(cls, v)", []⟩]⟩
    ⟨[], [("check", ["a", "b", "c"])]⟩ ["a", "b", "c"]
    (by decide) (by decide) (by decide)
  exact ⟨h.1.trans (by decide), h.2⟩

/-- C5: a validator whose bound-field list is empty makes
`replace_return_node` raise at the `fields[0]` index access: the call never
completes normally, in particular it does not skip the replacement as a
no-op. -/
theorem C5_zero_bound_fields_raises
    (env : String → Option ModelWrapper) (signode : DescSignature) (w : ModelWrapper)
    (hw : ModelWrapper.from_signode env signode = some w)
    (hf : w.get_fields_for_validator (last_component signode.fullname) = some []) :
    ∀ r : DescSignature,
      PydanticValidator.replace_return_node env signode ≠ CallResult.ok r := by
  intro r
  simp only [ModelWrapper.from_signode] at hw
  simp [PydanticValidator.replace_return_node, ModelWrapper.from_signode, hw, hf]

/-- C5 witness: a validator `check` bound to zero fields does not return its
input node unchanged (the no-op a skip would produce). -/
theorem C5_zero_bound_fields_raises_witness :
    PydanticValidator.replace_return_node
      (fun n => if n == "Model.check" then some ⟨[], [("check", [])]⟩ else none)
      ⟨"Model.check", []⟩ ≠ CallResult.ok ⟨"Model.check", []⟩ := by
  exact C5_zero_bound_fields_raises
    (fun n => if n == "Model.check" then some ⟨[], [("check", [])]⟩ else none)
    ⟨"Model.check", []⟩ ⟨[], [("check", [])]⟩ (by decide) (by decide)
    ⟨"Model.check", []⟩

/-- C10: `replace_return_node` is not atomic on failure: when the wrapper or
bound-field lookup fails or the bound-field list is empty, the call raises
with the node already mutated — the parameter list removed and the separator
annotation appended. -/
theorem C10_failure_leaves_node_mutated
    (env : String → Option ModelWrapper) (signode : DescSignature)
    (h : ModelWrapper.from_signode env signode = none ∨
         ∃ w, ModelWrapper.from_signode env signode = some w ∧
           (w.get_fields_for_validator (last_component signode.fullname) = none ∨
            w.get_fields_for_validator (last_component signode.fullname) = some [])) :
    PydanticValidator.replace_return_node env signode =
      CallResult.raised
        { signode with children :=
            remove_node_by_tagname signode.children "desc_parameterlist" ++
            [ desc_annotation_classes "" "  »  " ["autodoc_pydantic_validator_arrow"]] } := by
  rcases h with h | ⟨w, hw, hf | hf⟩ <;>
    simp only [ModelWrapper.from_signode] at * <;>
    simp [PydanticValidator.replace_return_node, ModelWrapper.from_signode, *]

/-- C10 witness: with an unresolvable dotted name, the raised state has the
parameter list gone and the separator annotation present. -/
theorem C10_failure_leaves_node_mutated_witness :
    PydanticValidator.replace_return_node (fun _ => none)
      ⟨"Model.check",
       [⟨"desc_parameterlist", "(cls, v)", []⟩, ⟨"desc_returns", "-> str", []⟩]⟩ =
      CallResult.raised
        ⟨"Model.check",
         [⟨"desc_returns", "-> str", []⟩,
          desc_annotation_classes "" "  »  " ["autodoc_pydantic_validator_arrow"]]⟩ := by
  have h := C10_failure_leaves_node_mutated (fun _ => none)
    ⟨"Model.check",
     [⟨"desc_parameterlist", "(cls, v)", []⟩, ⟨"desc_returns", "-> str", []⟩]⟩
    (Or.inl (by decide))
  exact h.trans (by decide)

/-- C8 counterexample: with show-alias enabled and a field `identifier`
aliased `id`, applying `PydanticField.handle_signature` to its own output
appends a second copy of the alias annotation instead of returning the same
node state, so the handler is not idempotent. -/
theorem C8_reapply_duplicates_refutes :
    PydanticField.handle_signature
      ⟨fun n => if n == "field-show-alias" then some (OptionValue.boolean true) else none,
       fun _ => OptionValue.unset⟩
      (fun n => if n == "Model.identifier"
                then some ⟨[⟨"identifier", "id"⟩], []⟩ else none)
      ⟨"Model.identifier", []⟩ "Model.identifier" "attribute " =
      CallResult.ok ("Model.identifier", "attribute ",
        ⟨"Model.identifier", [ desc_annotation "" " (alias \x27id\x27)"]⟩) ∧
    PydanticField.handle_signature
      ⟨fun n => if n == "field-show-alias" then some (OptionValue.boolean true) else none,
       fun _ => OptionValue.unset⟩
      (fun n => if n == "Model.identifier"
                then some ⟨[⟨"identifier", "id"⟩], []⟩ else none)
      ⟨"Model.identifier", [ desc_annotation "" " (alias \x27id\x27)"]⟩
      "Model.identifier" "attribute " ≠
      CallResult.ok ("Model.identifier", "attribute ",
        ⟨"Model.identifier", [ desc_annotation "" " (alias \x27id\x27)"]⟩) := by
  exact ⟨by decide, by decide⟩

/-- Tag removal distributes over list concatenation. -/
theorem remove_by_tagname_append (l1 l2 : List Node) (t : String) :
    remove_node_by_tagname (l1 ++ l2) t =
      remove_node_by_tagname l1 t ++ remove_node_by_tagname l2 t := by
  simp [remove_node_by_tagname, List.filter_append]

/-- Removing a tag twice removes no more than removing it once. -/
theorem remove_by_tagname_idem (l : List Node) (t : String) :
    remove_node_by_tagname (remove_node_by_tagname l t) t =
      remove_node_by_tagname l t := by
  simp only [remove_node_by_tagname]
  rw [List.filter_eq_self]
  intro a ha
  exact (List.mem_filter.mp ha).2

/-- The comma-joined tail nodes carry no parameter-list tag, so removing it
leaves them untouched. -/
theorem remove_by_tagname_join (rest : List String) :
    remove_node_by_tagname
      (rest.flatMap (fun g => [ desc_annotation "" ", ", create_field_href g]))
      "desc_parameterlist" =
      rest.flatMap (fun g => [ desc_annotation "" ", ", create_field_href g]) := by
  induction rest with
  | nil => rfl
  | cons a as ih =>
    rw [List.flatMap_cons, remove_by_tagname_append, ih]
    rfl

/-- Field reference node lists carry no parameter-list tag, so removing it
leaves them untouched. -/
theorem remove_by_tagname_refs (fs : List String) :
    remove_node_by_tagname (field_reference_nodes fs) "desc_parameterlist" =
      field_reference_nodes fs := by
  cases fs with
  | nil => rfl
  | cons f rest =>
    have h : field_reference_nodes (f :: rest) =
        [ create_field_href f] ++
          rest.flatMap (fun g => [ desc_annotation "" ", ", create_field_href g]) := rfl
    rw [h, remove_by_tagname_append, remove_by_tagname_join]
    rfl

/-- C8 (amended): the handlers carry no state — each CALL is a pure function
of its inputs — and are idempotent whenever their augmenting option resolves
falsy (they return the input unchanged); but with the option truthy,
re-applying a handler to its own output appends its nodes a second time —
the field handler duplicates the alias annotation and the validator handler
appends the separator and the field references again — so neither call is
idempotent on the node. -/
theorem C8_stateless_but_not_idempotent
    (pyautodoc : PydanticAutoDirective) (env : String → Option ModelWrapper)
    (signode : DescSignature) (fullname pfx : String)
    (w : ModelWrapper) (f : FieldInfo) (vf : String) (vrest : List String) :
    ((pyautodoc.get_option_value "field-show-alias").truthy = false →
       PydanticField.handle_signature pyautodoc env signode fullname pfx =
         CallResult.ok (fullname, pfx, signode)) ∧
    ((pyautodoc.get_option_value "validator-replace-signature").truthy = false →
       PydanticValidator.handle_signature pyautodoc env signode fullname pfx =
         CallResult.ok (fullname, pfx, signode)) ∧
    ((pyautodoc.get_option_value "field-show-alias").truthy = true →
     ModelWrapper.from_signode env signode = some w →
     w.get_field_object_by_name (last_component signode.fullname) = some f →
     f.«alias» ≠ last_component signode.fullname →
       PydanticField.handle_signature pyautodoc env
         { signode with children := signode.children ++
           [ desc_annotation "" (" (alias \x27" ++ f.«alias» ++ "\x27)")] }
         fullname pfx =
         CallResult.ok (fullname, pfx,
           { signode with children := signode.children ++
             [ desc_annotation "" (" (alias \x27" ++ f.«alias» ++ "\x27)"),
               desc_annotation "" (" (alias \x27" ++ f.«alias» ++ "\x27)")] })) ∧
    ((pyautodoc.get_option_value "validator-replace-signature").truthy = true →
     ModelWrapper.from_signode env signode = some w →
     w.get_fields_for_validator (last_component signode.fullname) = some (vf :: vrest) →
       PydanticValidator.handle_signature pyautodoc env
         { signode with children :=
             remove_node_by_tagname signode.children "desc_parameterlist" ++
             [ desc_annotation_classes "" "  »  " ["autodoc_pydantic_validator_arrow"]] ++
             field_reference_nodes (vf :: vrest) }
         fullname pfx =
         CallResult.ok (fullname, pfx,
           { signode with children :=
               remove_node_by_tagname signode.children "desc_parameterlist" ++
               [ desc_annotation_classes "" "  »  " ["autodoc_pydantic_validator_arrow"]] ++
               field_reference_nodes (vf :: vrest) ++
               [ desc_annotation_classes "" "  »  " ["autodoc_pydantic_validator_arrow"]] ++
               field_reference_nodes (vf :: vrest) })) := by
  refine ⟨fun h => ?_, fun h => ?_, fun hopt hw hf ha => ?_, fun hopt hw hf => ?_⟩
  · simp [PydanticField.handle_signature, h]
  · simp [PydanticValidator.handle_signature, h]
  · simp only [ModelWrapper.from_signode] at hw
    simp [PydanticField.handle_signature, hopt, PydanticField.add_alias,
      ModelWrapper.from_signode, hw, hf, ha]
  · simp only [ModelWrapper.from_signode] at hw
    have hC : remove_node_by_tagname
        (remove_node_by_tagname signode.children "desc_parameterlist" ++
         [ desc_annotation_classes "" "  »  " ["autodoc_pydantic_validator_arrow"]] ++
         field_reference_nodes (vf :: vrest)) "desc_parameterlist" =
        remove_node_by_tagname signode.children "desc_parameterlist" ++
         [ desc_annotation_classes "" "  »  " ["autodoc_pydantic_validator_arrow"]] ++
         field_reference_nodes (vf :: vrest) := by
      rw [remove_by_tagname_append, remove_by_tagname_append,
        remove_by_tagname_idem, remove_by_tagname_refs]
      rfl
    simp only [field_reference_nodes, List.append_assoc, List.cons_append,
      List.singleton_append, List.nil_append] at hC
    simp [PydanticValidator.handle_signature, hopt,
      PydanticValidator.replace_return_node, ModelWrapper.from_signode,
      hC, hw, hf, foldl_comma_href, field_reference_nodes, List.append_assoc]

/-- C8 witness: the amended statement evaluated concretely — with show-alias
unset the field handler returns its input unchanged; with show-alias enabled
re-application appends a duplicate alias annotation; and with
replace-signature enabled re-applying the validator handler to its own output
appends the separator and both field references a second time. -/
theorem C8_stateless_but_not_idempotent_witness :
    PydanticField.handle_signature
      ⟨fun _ => none, fun _ => OptionValue.unset⟩
      (fun n => if n == "Model.identifier"
                then some ⟨[⟨"identifier", "id"⟩], []⟩ else none)
      ⟨"Model.identifier", []⟩ "Model.identifier" "attribute " =
      CallResult.ok ("Model.identifier", "attribute ", ⟨"Model.identifier", []⟩) ∧
    PydanticField.handle_signature
      ⟨fun n => if n == "field-show-alias" then some (OptionValue.boolean true) else none,
       fun _ => OptionValue.unset⟩
      (fun n => if n == "Model.identifier"
                then some ⟨[⟨"identifier", "id"⟩], []⟩ else none)
      ⟨"Model.identifier", [ desc_annotation "" " (alias \x27id\x27)"]⟩
      "Model.identifier" "attribute " =
      CallResult.ok ("Model.identifier", "attribute ",
        ⟨"Model.identifier",
         [ desc_annotation "" " (alias \x27id\x27)",
           desc_annotation "" " (alias \x27id\x27)"]⟩) ∧
    PydanticValidator.handle_signature
      ⟨fun n => if n == "validator-replace-signature"
                then some (OptionValue.boolean true) else none,
       fun _ => OptionValue.unset⟩
      (fun n => if n == "Model.check"
                then some ⟨[], [("check", ["a", "b"])]⟩ else none)
      ⟨"Model.check",
       [ desc_annotation_classes "" "  »  " ["autodoc_pydantic_validator_arrow"],
         create_field_href "a", desc_annotation "" ", ", create_field_href "b"]⟩
      "Model.check" "classmethod " =
      CallResult.ok ("Model.check", "classmethod ",
        ⟨"Model.check",
         [ desc_annotation_classes "" "  »  " ["autodoc_pydantic_validator_arrow"],
           create_field_href "a", desc_annotation "" ", ", create_field_href "b",
           desc_annotation_classes "" "  »  " ["autodoc_pydantic_validator_arrow"],
           create_field_href "a", desc_annotation "" ", ", create_field_href "b"]⟩) := by
  refine ⟨?_, ?_, ?_⟩
  · exact (C8_stateless_but_not_idempotent
      ⟨fun _ => none, fun _ => OptionValue.unset⟩
      (fun n => if n == "Model.identifier"
                then some ⟨[⟨"identifier", "id"⟩], []⟩ else none)
      ⟨"Model.identifier", []⟩ "Model.identifier" "attribute "
      ⟨[⟨"identifier", "id"⟩], []⟩ ⟨"identifier", "id"⟩ "a" []).1 (by decide)
  · have h := (C8_stateless_but_not_idempotent
      ⟨fun n => if n == "field-show-alias" then some (OptionValue.boolean true) else none,
       fun _ => OptionValue.unset⟩
      (fun n => if n == "Model.identifier"
                then some ⟨[⟨"identifier", "id"⟩], []⟩ else none)
      ⟨"Model.identifier", []⟩ "Model.identifier" "attribute "
      ⟨[⟨"identifier", "id"⟩], []⟩ ⟨"identifier", "id"⟩ "a" []).2.2.1
      (by decide) (by decide) (by decide) (by decide)
    exact h.trans (by decide)
  · have h := (C8_stateless_but_not_idempotent
      ⟨fun n => if n == "validator-replace-signature"
                then some (OptionValue.boolean true) else none,
       fun _ => OptionValue.unset⟩
      (fun n => if n == "Model.check"
                then some ⟨[], [("check", ["a", "b"])]⟩ else none)
      ⟨"Model.check", [⟨"desc_parameterlist", "(cls, v)", []⟩]⟩
      "Model.check" "classmethod "
      ⟨[], [("check", ["a", "b"])]⟩ ⟨"identifier", "id"⟩ "a" ["b"]).2.2.2
      (by decide) (by decide) (by decide)
    exact h.trans (by decide)
